import Mathlib

/-!
Verification development for the UEBA security monitor
(`orchestration/workflow_manager.py`, class `UEBA_Monitor`).

The monitor records per-(agent, event type) timestamp windows, evaluates a
fixed set of anomaly rules on each incoming event, accumulates a clamped
anomaly score per agent, promotes high/critical findings to alerts and
publishes control commands (isolate / throttle) on the bus.

Times and scores are modelled as rationals (`ℚ`): the Python code only ever
adds, multiplies, compares and floors these quantities, so the embedding is
exact.  Publishing on Redis is modelled by a list of emitted `Command`s;
the per-key window map (a defaultdict of deques keyed by the composite
string `agent_id ++ ":" ++ event_type`) is modelled as a total function from
keys to timestamp lists, with the empty list standing for an absent key.
-/

namespace UEBA

/-- Severity levels of a finding, as used by `detect_anomalies`. -/
inductive Severity
  | low
  | medium
  | high
  | critical
deriving DecidableEq

/-- Payload values: the rules only ever test truthiness of a payload field
(`event_data.get('sensitive', False)`), so booleans and strings suffice. -/
inductive Val
  | vb (b : Bool)
  | vs (s : String)
deriving DecidableEq

/-- Python truthiness for payload values: `False` and `""` are falsy. -/
def truthy : Val → Bool
  | Val.vb b => b
  | Val.vs s => !(s == "")

/-- A finding produced by `detect_anomalies`: its `type`, severity, and the
numeric `value`/`threshold` fields carried by the rate-based rules. -/
structure Finding where
  ftype : String
  severity : Severity
  value : Option Int
  threshold : Option Int
deriving DecidableEq

/-- An alert record as built by `generate_alert` (`status` starts at "new"). -/
structure Alert where
  alert_id : String
  timestamp : ℚ
  agent_id : String
  ftype : String
  severity : Severity
  status : String
deriving DecidableEq

/-- The rate thresholds of the default rule configuration
(`get_default_rules`). -/
structure Rules where
  max_calls_per_minute : Int
  max_messages_per_minute : Int
  max_failed_requests_per_hour : Int
deriving DecidableEq

/-- Default policy: 100 API calls/minute, 50 messages/minute, 10 failed
requests/hour. -/
def defaultRules : Rules := ⟨100, 50, 10⟩

/-- Control commands the monitor publishes on Redis: an alert on
`ueba:alerts`, and `isolate`/`throttle` commands on the agent's
`agent:ID:control` channel. -/
inductive Command
  | publishAlert (a : Alert)
  | isolate (agent_id : String)
  | throttle (agent_id : String)
deriving DecidableEq

/-- The per-key behavior windows: the composite key maps to the deque of
retained timestamps (`[]` for a key never recorded). -/
abbrev Windows := String → List ℚ

/-- Composite behavior key, `f"AGENT:EVENT_TYPE"` in the source. -/
def behaviorKey (agent_id event_type : String) : String :=
  agent_id ++ ":" ++ event_type

/-- One hour, in seconds. -/
def oneHour : ℚ := 3600

/-- In-memory state of the monitor: behavior windows, the append-only alert
list and the per-agent anomaly scores (`defaultdict(float)`, default 0). -/
structure Monitor where
  behaviors : Windows
  alerts : List Alert
  scores : String → ℚ

/-- The freshly constructed monitor: no windows, no alerts, all scores 0. -/
def initMonitor : Monitor := ⟨fun _ => [], [], fun _ => 0⟩

/-- The hour-of-day of an epoch timestamp, standing for `timestamp.hour`. -/
def hourOf (t : ℚ) : Int := ⌊t⌋ / 3600 % 24

/-- Embedding of `record_behavior`: append the timestamp to the key's window,
then pop entries `< now - 1 hour` from the front of the deque. -/
def record_behavior (w : Windows) (agent_id event_type : String) (ts now : ℚ) :
    Windows :=
  Function.update w (behaviorKey agent_id event_type)
    ((w (behaviorKey agent_id event_type) ++ [ts]).dropWhile
      (fun t => decide (t < now - oneHour)))

/-- Embedding of `get_calls_in_last_minute`: count retained timestamps
strictly newer than `now - 60`; an absent key (empty window) yields 0. -/
def get_calls_in_last_minute (w : Windows) (agent_id event_type : String)
    (now : ℚ) : Nat :=
  ((w (behaviorKey agent_id event_type)).filter
    (fun t => decide (now - 60 < t))).length

/-- Embedding of `get_failures_last_hour`: count retained `request_failed`
timestamps strictly newer than `now - 3600`. -/
def get_failures_last_hour (w : Windows) (agent_id : String) (now : ℚ) : Nat :=
  ((w (behaviorKey agent_id "request_failed")).filter
    (fun t => decide (now - oneHour < t))).length

/-- Embedding of `detect_anomalies`: the five rules, evaluated in source
order (rules 1/2 are an if/elif chain on the event type, rule 3 runs on
every event, rules 4 and 5 are independent ifs). -/
def detect_anomalies (rules : Rules) (w : Windows) (agent_id event_type : String)
    (payload : List (String × Val)) (now : ℚ) : List Finding :=
  let r12 : List Finding :=
    if event_type == "api_call" then
      let calls : Nat := get_calls_in_last_minute w agent_id "api_call" now
      if rules.max_calls_per_minute < (calls : Int) then
        [⟨"API_CALL_FREQUENCY", Severity.high, some (calls : Int),
          some rules.max_calls_per_minute⟩]
      else []
    else if event_type == "message_sent" then
      let msgs : Nat := get_calls_in_last_minute w agent_id "message_sent" now
      if rules.max_messages_per_minute < (msgs : Int) then
        [⟨"MESSAGE_FREQUENCY", Severity.medium, some (msgs : Int),
          some rules.max_messages_per_minute⟩]
      else []
    else []
  let r3 : List Finding :=
    if hourOf now < 6 ∨ 22 < hourOf now then
      [⟨"UNUSUAL_TIME_ACCESS", Severity.low, some (hourOf now), none⟩]
    else []
  let r4 : List Finding :=
    if event_type == "request_failed" then
      let fails : Nat := get_failures_last_hour w agent_id now
      if rules.max_failed_requests_per_hour < (fails : Int) then
        [⟨"HIGH_FAILURE_RATE", Severity.high, some (fails : Int),
          some rules.max_failed_requests_per_hour⟩]
      else []
    else []
  let r5 : List Finding :=
    if event_type == "data_access" ∧
        truthy ((List.lookup "sensitive" payload).getD (Val.vb false)) then
      [⟨"SENSITIVE_DATA_ACCESS", Severity.critical, none, none⟩]
    else []
  r12 ++ r3 ++ r4 ++ r5

/-- Severity-weighted score increments used by `update_anomaly_score`. -/
def severityIncrement : Severity → ℚ
  | Severity.critical => 3 / 10
  | Severity.high => 2 / 10
  | Severity.medium => 1 / 10
  | Severity.low => 5 / 100

/-- The elapsed-hours value the source feeds into the decay factor.  The code
hard-codes it to zero (line 228: `hours_since_update = 0`), so the decay
factor `0.9 ** hours_since_update` is always 1. -/
def hours_since_update : Nat := 0

/-- Embedding of `update_anomaly_score`: add each finding's increment to the
current score, multiply by the decay factor, clamp to `[0, 1]`. -/
def update_anomaly_score (score : ℚ) (anomalies : List Finding) : ℚ :=
  let raised : ℚ :=
    anomalies.foldl (fun acc a => acc + severityIncrement a.severity) score
  let decayed : ℚ := raised * (9 / 10) ^ hours_since_update
  max 0 (min 1 decayed)

/-- Alert id, `f"alert_INT(TIME.TIME())"` in the source: the prefixed
integer second of the raise time. -/
def alertId (now : ℚ) : String := "alert_" ++ toString ⌊now⌋

/-- The alert record `generate_alert` builds for a finding: id from the
integer second, status "new". -/
def mkAlert (agent_id : String) (f : Finding) (now : ℚ) : Alert :=
  ⟨alertId now, now, agent_id, f.ftype, f.severity, "new"⟩

/-- Embedding of `take_action`: critical isolates the agent, high throttles
it, medium/low publish nothing (logging only). -/
def take_action (agent_id : String) (severity : Severity) : List Command :=
  match severity with
  | Severity.critical => [Command.isolate agent_id]
  | Severity.high => [Command.throttle agent_id]
  | Severity.medium => []
  | Severity.low => []

/-- Embedding of `generate_alert`: append the alert, publish it on
`ueba:alerts`, then run `take_action` for its severity. -/
def generate_alert (m : Monitor) (agent_id : String) (f : Finding) (now : ℚ) :
    Monitor × List Command :=
  let alert : Alert := mkAlert agent_id f now
  (⟨m.behaviors, m.alerts ++ [alert], m.scores⟩,
   Command.publishAlert alert :: take_action agent_id f.severity)

/-- The alert loop of `monitor_agent_behavior`: for each anomaly of severity
critical or high, `generate_alert` is awaited in order. -/
def process_alerts (m : Monitor) (agent_id : String) (findings : List Finding)
    (now : ℚ) : Monitor × List Command :=
  match findings with
  | [] => (m, [])
  | f :: rest =>
    if f.severity == Severity.critical || f.severity == Severity.high then
      let step := generate_alert m agent_id f now
      let next := process_alerts step.1 agent_id rest now
      (next.1, step.2 ++ next.2)
    else process_alerts m agent_id rest now

/-- Embedding of one call to `monitor_agent_behavior`: record the event,
detect anomalies, and when any were found update the score and raise alerts;
finally, publish an `isolate` command whenever the stored score exceeds 0.8.
Returns the new state and the list of published commands, in publish
order. -/
def monitor_agent_behavior (rules : Rules) (m : Monitor)
    (agent_id event_type : String) (payload : List (String × Val)) (now : ℚ) :
    Monitor × List Command :=
  let w : Windows := record_behavior m.behaviors agent_id event_type now now
  let anomalies : List Finding :=
    detect_anomalies rules w agent_id event_type payload now
  let afterAlerts : Monitor × List Command :=
    if anomalies = [] then (⟨w, m.alerts, m.scores⟩, [])
    else
      let newScore : ℚ := update_anomaly_score (m.scores agent_id) anomalies
      let m1 : Monitor := ⟨w, m.alerts, Function.update m.scores agent_id newScore⟩
      process_alerts m1 agent_id anomalies now
  let isoCmds : List Command :=
    if (4 / 5 : ℚ) < afterAlerts.1.scores agent_id then
      [Command.isolate agent_id]
    else []
  (afterAlerts.1, afterAlerts.2 ++ isoCmds)

/-- An inbound event, for folding a whole trace through the monitor. -/
structure EventIn where
  agent_id : String
  event_type : String
  payload : List (String × Val)
  now : ℚ

/-- Run the monitor over a sequence of inbound events from a given state. -/
def runFrom (rules : Rules) (m : Monitor) (evs : List EventIn) : Monitor :=
  evs.foldl
    (fun st e =>
      (monitor_agent_behavior rules st e.agent_id e.event_type e.payload e.now).1)
    m

/-- Run the monitor over a sequence of inbound events from the fresh state. -/
def runMonitor (rules : Rules) (evs : List EventIn) : Monitor :=
  runFrom rules initMonitor evs

/-- Status record returned by `get_agent_status`. -/
structure AgentStatus where
  agent_id : String
  anomaly_score : ℚ
  status : String
  last_alert : Option Alert
deriving DecidableEq

/-- Embedding of `get_agent_status`: the score (0 for an unseen agent), the
status string derived from the score alone, and the most recent alert for
the agent. -/
def get_agent_status (m : Monitor) (agent_id : String) : AgentStatus :=
  ⟨agent_id, m.scores agent_id,
   if (4 / 5 : ℚ) < m.scores agent_id then "isolated" else "monitored",
   m.alerts.reverse.find? (fun a => a.agent_id == agent_id)⟩

/-- Rule-engine trace: record each event, then evaluate the rules, yielding
the per-event findings list (the record-then-detect order of
`monitor_agent_behavior`). -/
def evalTrace (rules : Rules) (w : Windows) (agent_id event_type : String)
    (payload : List (String × Val)) (times : List ℚ) : List (List Finding) :=
  match times with
  | [] => []
  | t :: rest =>
    let w1 : Windows := record_behavior w agent_id event_type t t
    detect_anomalies rules w1 agent_id event_type payload t
      :: evalTrace rules w1 agent_id event_type payload rest

/-- Recognizer for API-frequency findings. -/
def isApi (f : Finding) : Bool := f.ftype == "API_CALL_FREQUENCY"

/-- Count of `isolate` commands in a published command list. -/
def isolateCount (cmds : List Command) (agent_id : String) : Nat :=
  cmds.countP (fun c => c == Command.isolate agent_id)

/-- Modelled from the spec (section 4.1): the count of retained timestamps
greater than OR EQUAL to the cutoff, as the spec's `countSince` words have
it; to be compared with the source's strict comparison. -/
def countSinceSpec (w : Windows) (key : String) (since : ℚ) : Nat :=
  ((w key).filter (fun t => decide (since ≤ t))).length

/-- Predicate for the severities `monitor_agent_behavior` promotes to alerts. -/
def alertWorthy (f : Finding) : Bool :=
  f.severity == Severity.critical || f.severity == Severity.high

/-!
Helper lemmas about the embedded operations, shared by the claim theorems.
-/

/-- A `dropWhile` whose predicate fails on every element drops nothing. -/
theorem dropWhile_eq_self_of_all {α : Type} (p : α → Bool) (l : List α)
    (h : ∀ x ∈ l, p x = false) : l.dropWhile p = l := by
  cases l with
  | nil => rfl
  | cons a t =>
    rw [List.dropWhile_cons_of_neg]
    simp [h a (List.mem_cons_self a t)]

/-- Alert processing never touches the behavior windows. -/
theorem process_alerts_behaviors (m : Monitor) (agent : String)
    (fs : List Finding) (now : ℚ) :
    (process_alerts m agent fs now).1.behaviors = m.behaviors := by
  induction fs generalizing m with
  | nil => rfl
  | cons f rest ih =>
    simp only [process_alerts]
    split
    · simp [generate_alert, ih]
    · exact ih m

/-- Alert processing never touches the anomaly scores. -/
theorem process_alerts_scores (m : Monitor) (agent : String)
    (fs : List Finding) (now : ℚ) :
    (process_alerts m agent fs now).1.scores = m.scores := by
  induction fs generalizing m with
  | nil => rfl
  | cons f rest ih =>
    simp only [process_alerts]
    split
    · simp [generate_alert, ih]
    · exact ih m

/-- Alert processing appends exactly one alert per critical/high finding, in
order, and never removes or overwrites an existing alert. -/
theorem process_alerts_alerts (m : Monitor) (agent : String)
    (fs : List Finding) (now : ℚ) :
    (process_alerts m agent fs now).1.alerts
      = m.alerts ++ (fs.filter alertWorthy).map (fun f => mkAlert agent f now) := by
  induction fs generalizing m with
  | nil => simp [process_alerts]
  | cons f rest ih =>
    simp only [process_alerts, List.filter_cons]
    by_cases hf : (f.severity == Severity.critical || f.severity == Severity.high) = true
    · rw [if_pos hf]
      simp [alertWorthy, hf, generate_alert, ih, mkAlert]
    · rw [if_neg hf]
      simp [alertWorthy, hf, ih]

/-- Alert processing publishes one `isolate` command per critical finding
(and none for any other severity). -/
theorem process_alerts_isolate (m : Monitor) (agent : String)
    (fs : List Finding) (now : ℚ) :
    isolateCount (process_alerts m agent fs now).2 agent
      = fs.countP (fun f => f.severity == Severity.critical) := by
  induction fs generalizing m with
  | nil => simp [process_alerts, isolateCount]
  | cons f rest ih =>
    simp only [process_alerts, List.countP_cons]
    cases hf : f.severity with
    | critical =>
      rw [if_pos (by simp [hf])]
      have hrest := ih ⟨m.behaviors, m.alerts ++ [mkAlert agent f now], m.scores⟩
      simp only [isolateCount] at hrest
      simp [isolateCount, take_action, generate_alert, hf, List.countP_append,
        List.countP_cons, hrest]
    | high =>
      rw [if_pos (by simp [hf])]
      have hrest := ih ⟨m.behaviors, m.alerts ++ [mkAlert agent f now], m.scores⟩
      simp only [isolateCount] at hrest
      simp [isolateCount, take_action, generate_alert, hf, List.countP_append,
        List.countP_cons, hrest]
    | medium =>
      rw [if_neg (by simp [hf])]
      simp [hf, ih]
    | low =>
      rw [if_neg (by simp [hf])]
      simp [hf, ih]

/-- One monitor call: the behavior windows are updated by `record_behavior`,
the alert log is extended by the promoted findings, and the score map is
either untouched (no findings) or updated at the observed agent by
`update_anomaly_score`. -/
theorem monitor_state_char (rules : Rules) (m : Monitor)
    (agent etype : String) (payload : List (String × Val)) (now : ℚ) :
    (monitor_agent_behavior rules m agent etype payload now).1.behaviors
        = record_behavior m.behaviors agent etype now now
    ∧ (monitor_agent_behavior rules m agent etype payload now).1.alerts
        = m.alerts
          ++ ((detect_anomalies rules (record_behavior m.behaviors agent etype now now)
                agent etype payload now).filter alertWorthy).map
              (fun f => mkAlert agent f now)
    ∧ (monitor_agent_behavior rules m agent etype payload now).1.scores
        = (if detect_anomalies rules (record_behavior m.behaviors agent etype now now)
              agent etype payload now = [] then m.scores
           else Function.update m.scores agent
              (update_anomaly_score (m.scores agent)
                (detect_anomalies rules (record_behavior m.behaviors agent etype now now)
                  agent etype payload now))) := by
  by_cases h : detect_anomalies rules (record_behavior m.behaviors agent etype now now)
      agent etype payload now = []
  · simp [monitor_agent_behavior, h]
  · simp [monitor_agent_behavior, h, process_alerts_behaviors, process_alerts_scores,
      process_alerts_alerts]

/-- The clamp in `update_anomaly_score` keeps every result inside `[0, 1]`. -/
theorem update_score_bounds (s : ℚ) (fs : List Finding) :
    0 ≤ update_anomaly_score s fs ∧ update_anomaly_score s fs ≤ 1 := by
  simp only [update_anomaly_score]
  exact ⟨le_max_left 0 _, max_le (by norm_num) (min_le_left 1 _)⟩

/-- Running the monitor preserves the score bounds invariant. -/
theorem runFrom_score_bounds (rules : Rules) (evs : List EventIn) :
    ∀ m : Monitor, (∀ a, 0 ≤ m.scores a ∧ m.scores a ≤ 1) →
      ∀ a, 0 ≤ (runFrom rules m evs).scores a ∧ (runFrom rules m evs).scores a ≤ 1 := by
  induction evs with
  | nil => intro m h a; exact h a
  | cons e rest ih =>
    intro m h a
    refine ih (monitor_agent_behavior rules m e.agent_id e.event_type e.payload e.now).1 ?_ a
    intro b
    rw [(monitor_state_char rules m e.agent_id e.event_type e.payload e.now).2.2]
    split
    · exact h b
    · rcases eq_or_ne b e.agent_id with rfl | hne
      · rw [Function.update_same]
        exact update_score_bounds _ _
      · rw [Function.update_noteq hne]
        exact h b

/-- Counting with a non-strict cutoff splits into the strict count plus the
number of elements exactly at the cutoff. -/
theorem countP_cutoff_split (c : ℚ) (l : List ℚ) :
    l.countP (fun t => decide (c ≤ t))
      = l.countP (fun t => decide (c < t)) + l.countP (fun t => decide (t = c)) := by
  induction l with
  | nil => rfl
  | cons x t ih =>
    simp only [List.countP_cons]
    rcases lt_trichotomy x c with h | h | h
    · simp [not_le.mpr h, not_lt.mpr (le_of_lt h), ne_of_lt h, ih]
    · simp [h, ih]
      omega
    · simp [le_of_lt h, h, (ne_of_lt h).symm, ih]
      omega


/-- C1: the spec claims lazy decay (`score` multiplied by `0.9 ^ t` for `t`
elapsed hours, giving about 0.0798 after 24 hours from score 1.0).  The code
hard-codes the elapsed hours to 0 (its own comment says the value "would be
calculated in real implementation"), so `update_anomaly_score` applies no
decay at all: it is exactly the clamped sum of increments, a score of 1.0
with no findings stays 1.0, while the claimed 24-hour value `0.9 ^ 24` lies
strictly between 0.07 and 0.08. -/
theorem decay_disabled_in_update :
    (∀ (s : ℚ) (fs : List Finding),
        update_anomaly_score s fs
          = max 0 (min 1 (fs.foldl (fun acc f => acc + severityIncrement f.severity) s)))
    ∧ update_anomaly_score 1 [] = 1
    ∧ (7 / 100 : ℚ) < (9 / 10 : ℚ) ^ (24 : Nat)
    ∧ (9 / 10 : ℚ) ^ (24 : Nat) < 8 / 100 := by
  refine ⟨fun s fs => ?_, by norm_num [update_anomaly_score, hours_since_update],
    by norm_num, by norm_num⟩
  simp [update_anomaly_score, hours_since_update]

/-- C4: for every agent, after any sequence of monitor updates the stored
anomaly score satisfies `0 ≤ score ≤ 1`. -/
theorem score_clamped_unit_interval (rules : Rules) (evs : List EventIn) (agent : String) :
    0 ≤ (runMonitor rules evs).scores agent ∧ (runMonitor rules evs).scores agent ≤ 1 :=
  runFrom_score_bounds rules evs initMonitor (fun _ => by norm_num [initMonitor]) agent

/-- C6 counterexample: the code counts with a STRICT comparison, so a
timestamp exactly equal to the cutoff `now - 60` is not counted: with window
`[0]` and `now = 60` the code returns 0 while the claimed
greater-or-equal count returns 1. -/
theorem countSince_boundary_cex :
    get_calls_in_last_minute
        (Function.update (fun _ => []) (behaviorKey "a" "api_call") [(0 : ℚ)])
        "a" "api_call" 60 = 0
    ∧ countSinceSpec
        (Function.update (fun _ => []) (behaviorKey "a" "api_call") [(0 : ℚ)])
        (behaviorKey "a" "api_call") (60 - 60) = 1 := by
  constructor
  · simp [get_calls_in_last_minute, Function.update_same]
  · simp [countSinceSpec, Function.update_same]

/-- C6 (amended): `countSince` returns the number of retained timestamps
STRICTLY greater than the cutoff — the claimed greater-or-equal count
exceeds it by exactly the number of timestamps equal to the cutoff — and an
unknown key (empty window) never fails and returns 0. -/
theorem countSince_strict_bound (w : Windows) (agent etype : String) (now : ℚ) :
    get_calls_in_last_minute w agent etype now
      = ((w (behaviorKey agent etype)).filter (fun t => decide (now - 60 < t))).length
    ∧ countSinceSpec w (behaviorKey agent etype) (now - 60)
      = get_calls_in_last_minute w agent etype now
        + (w (behaviorKey agent etype)).countP (fun t => decide (t = now - 60))
    ∧ countSinceSpec w (behaviorKey agent "request_failed") (now - oneHour)
      = get_failures_last_hour w agent now
        + (w (behaviorKey agent "request_failed")).countP (fun t => decide (t = now - oneHour))
    ∧ get_calls_in_last_minute (fun _ => []) agent etype now = 0
    ∧ get_failures_last_hour (fun _ => []) agent now = 0 := by
  refine ⟨rfl, ?_, ?_, rfl, rfl⟩
  · simp only [countSinceSpec, get_calls_in_last_minute, ← List.countP_eq_length_filter]
    exact countP_cutoff_split (now - 60) _
  · simp only [countSinceSpec, get_failures_last_hour, ← List.countP_eq_length_filter]
    exact countP_cutoff_split (now - oneHour) _

/-- C7 counterexample: two distinct alerts raised in quick succession (at
times 0 and 0.5, the same integer second) receive the SAME id `alert_0`, so
alert ids are not unique per alert. -/
theorem alert_id_collision_cex :
    ((generate_alert
        (generate_alert initMonitor "a"
          ⟨"SENSITIVE_DATA_ACCESS", Severity.critical, none, none⟩ 0).1
        "a" ⟨"SENSITIVE_DATA_ACCESS", Severity.critical, none, none⟩ (1 / 2)).1.alerts.map
      (fun al => al.alert_id)) = ["alert_0", "alert_0"]
    ∧ (generate_alert
        (generate_alert initMonitor "a"
          ⟨"SENSITIVE_DATA_ACCESS", Severity.critical, none, none⟩ 0).1
        "a" ⟨"SENSITIVE_DATA_ACCESS", Severity.critical, none, none⟩ (1 / 2)).1.alerts.length
      = 2 := by
  constructor
  · norm_num [generate_alert, mkAlert, alertId, initMonitor]
    rfl
  · norm_num [generate_alert, mkAlert, alertId, initMonitor]

/-- C7 (amended): the alert id is fully determined by the integer second of
the raise time (`alert_` followed by the floored timestamp), so any two
alerts raised within the same integer second share one id; `generate_alert`
is append-only. -/
theorem alert_id_from_second (m : Monitor) (agent : String) (f : Finding) (t : ℚ) :
    (generate_alert m agent f t).1.alerts = m.alerts ++ [mkAlert agent f t]
    ∧ (mkAlert agent f t).alert_id = "alert_" ++ toString ⌊t⌋
    ∧ ∀ t1 t2 : ℚ, ⌊t1⌋ = ⌊t2⌋ → alertId t1 = alertId t2 := by
  refine ⟨rfl, rfl, fun t1 t2 h => ?_⟩
  simp [alertId, h]

/-- Witness for the amended C7 statement at the concrete times 0 and 0.5. -/
theorem alert_id_from_second_checked :
    (⌊(0 : ℚ)⌋ = ⌊(1 / 2 : ℚ)⌋) ∧ alertId 0 = alertId (1 / 2) :=
  ⟨by norm_num,
   (alert_id_from_second initMonitor "a" ⟨"x", Severity.low, none, none⟩ 0).2.2
     0 (1 / 2) (by norm_num)⟩

/-- C10: `get_agent_status` reports `isolated` exactly when the stored score
strictly exceeds 0.8 and `monitored` otherwise; a never-seen agent reports
`monitored` with score 0; and an agent that received an `isolate` command
through a critical finding while its score stayed at or below 0.8 (here:
score 0.3 after one sensitive data access) is still reported `monitored`. -/
theorem agent_status_from_score :
    (∀ (m : Monitor) (agent : String),
        ((get_agent_status m agent).status = "isolated" ↔ (4 / 5 : ℚ) < m.scores agent))
    ∧ (∀ agent : String, get_agent_status initMonitor agent = ⟨agent, 0, "monitored", none⟩)
    ∧ Command.isolate "x" ∈ (monitor_agent_behavior defaultRules initMonitor "x" "data_access"
        [("sensitive", Val.vb true)] 43200).2
    ∧ (get_agent_status (monitor_agent_behavior defaultRules initMonitor "x" "data_access"
        [("sensitive", Val.vb true)] 43200).1 "x").status = "monitored"
    ∧ (get_agent_status (monitor_agent_behavior defaultRules initMonitor "x" "data_access"
        [("sensitive", Val.vb true)] 43200).1 "x").anomaly_score = 3 / 10 := by
  refine ⟨fun m agent => ?_, fun agent => ?_, ?_, ?_, ?_⟩
  · by_cases h : (4 / 5 : ℚ) < m.scores agent
    · simp [get_agent_status, h]
    · simp +decide [get_agent_status, h]
  · norm_num [get_agent_status, initMonitor]
  · norm_num +decide [monitor_agent_behavior, record_behavior, detect_anomalies,
      get_calls_in_last_minute, get_failures_last_hour, behaviorKey, oneHour, hourOf,
      truthy, update_anomaly_score, severityIncrement, hours_since_update, process_alerts,
      generate_alert, mkAlert, alertId, take_action, initMonitor, defaultRules,
      Function.update, List.lookup]
  · norm_num +decide [monitor_agent_behavior, record_behavior, detect_anomalies,
      get_calls_in_last_minute, get_failures_last_hour, behaviorKey, oneHour, hourOf,
      truthy, update_anomaly_score, severityIncrement, hours_since_update, process_alerts,
      generate_alert, mkAlert, alertId, take_action, get_agent_status, initMonitor,
      defaultRules, Function.update, List.lookup]
  · norm_num +decide [monitor_agent_behavior, record_behavior, detect_anomalies,
      get_calls_in_last_minute, get_failures_last_hour, behaviorKey, oneHour, hourOf,
      truthy, update_anomaly_score, severityIncrement, hours_since_update, process_alerts,
      generate_alert, mkAlert, alertId, take_action, get_agent_status, initMonitor,
      defaultRules, Function.update, List.lookup]

/-- Witness for the status/score equivalence of C10 at a concrete monitor
whose agent `w` holds score 0.9. -/
theorem agent_status_from_score_checked :
    (4 / 5 : ℚ) < (Function.update (fun _ => (0 : ℚ)) "w" (9 / 10)) "w"
    ∧ (get_agent_status ⟨fun _ => [], [], Function.update (fun _ => 0) "w" (9 / 10)⟩
        "w").status = "isolated" :=
  ⟨by rw [Function.update_same]; norm_num,
   (agent_status_from_score.1 ⟨fun _ => [], [], Function.update (fun _ => 0) "w" (9 / 10)⟩
      "w").mpr (by norm_num [Function.update_same])⟩

/-- C2 counterexample: with prior score 0.6 (not above 0.8), one critical
`data_access` finding raises the score to 0.9, so in this single call the
score first exceeds 0.8 — yet TWO `isolate` commands are published on the
agent control channel: one by `take_action` for the critical severity and a
second by the score check. -/
theorem isolate_duplicate_cex :
    ¬ ((4 / 5 : ℚ) < (Function.update (fun _ => (0 : ℚ)) "a" (3 / 5)) "a")
    ∧ (4 / 5 : ℚ) < (monitor_agent_behavior defaultRules
        ⟨fun _ => [], [], Function.update (fun _ => 0) "a" (3 / 5)⟩ "a" "data_access"
        [("sensitive", Val.vb true)] 43200).1.scores "a"
    ∧ isolateCount (monitor_agent_behavior defaultRules
        ⟨fun _ => [], [], Function.update (fun _ => 0) "a" (3 / 5)⟩ "a" "data_access"
        [("sensitive", Val.vb true)] 43200).2 "a" = 2 := by
  refine ⟨by rw [Function.update_same]; norm_num, ?_, ?_⟩
  · norm_num +decide [monitor_agent_behavior, record_behavior, detect_anomalies,
      get_calls_in_last_minute, get_failures_last_hour, behaviorKey, oneHour, hourOf,
      truthy, update_anomaly_score, severityIncrement, hours_since_update, process_alerts,
      generate_alert, mkAlert, alertId, take_action, defaultRules, Function.update,
      List.lookup]
  · norm_num +decide [monitor_agent_behavior, record_behavior, detect_anomalies,
      get_calls_in_last_minute, get_failures_last_hour, behaviorKey, oneHour, hourOf,
      truthy, update_anomaly_score, severityIncrement, hours_since_update, process_alerts,
      generate_alert, mkAlert, alertId, take_action, isolateCount, defaultRules,
      Function.update, List.lookup, List.countP, List.countP.go]

/-- C2 (amended): in one call to `monitor_agent_behavior` the number of
published `isolate` commands equals the number of critical-severity findings
of that call plus one if the post-update stored score exceeds 0.8.  In
particular an agent whose score first exceeds 0.8 through non-critical
findings gets exactly one `isolate` command, but each critical finding in
the same call contributes an additional one. -/
theorem isolate_count_per_update (rules : Rules) (m : Monitor) (agent etype : String)
    (payload : List (String × Val)) (now : ℚ) :
    isolateCount (monitor_agent_behavior rules m agent etype payload now).2 agent
      = (detect_anomalies rules (record_behavior m.behaviors agent etype now now)
          agent etype payload now).countP (fun f => f.severity == Severity.critical)
        + (if (4 / 5 : ℚ) < (monitor_agent_behavior rules m agent etype payload now).1.scores
              agent
           then 1 else 0) := by
  by_cases h : detect_anomalies rules (record_behavior m.behaviors agent etype now now)
      agent etype payload now = []
  · simp only [monitor_agent_behavior, h, if_true, eq_self_iff_true]
    simp [h, isolateCount]
    split <;> simp
  · simp only [monitor_agent_behavior, if_neg h]
    have hiso := process_alerts_isolate
      ⟨record_behavior m.behaviors agent etype now now, m.alerts,
        Function.update m.scores agent
          (update_anomaly_score (m.scores agent)
            (detect_anomalies rules (record_behavior m.behaviors agent etype now now)
              agent etype payload now))⟩
      agent
      (detect_anomalies rules (record_behavior m.behaviors agent etype now now)
        agent etype payload now) now
    simp only [isolateCount, List.countP_append] at hiso ⊢
    rw [hiso]
    split <;> simp

/-- On a sorted window, the prefix trim of `record_behavior` leaves only
timestamps at or after the cutoff. -/
theorem dropWhile_sorted_lower_bound (c : ℚ) :
    ∀ l : List ℚ, List.Sorted (· ≤ ·) l →
      ∀ x ∈ l.dropWhile (fun t => decide (t < c)), c ≤ x := by
  intro l
  induction l with
  | nil => intro _ x hx; simp at hx
  | cons a t ih =>
    intro hs x hx
    by_cases ha : a < c
    · rw [List.dropWhile_cons_of_pos (by simp [ha])] at hx
      exact ih hs.of_cons x hx
    · rw [List.dropWhile_cons_of_neg (by simp [ha])] at hx
      rcases List.mem_cons.mp hx with rfl | hxt
      · exact not_lt.mp ha
      · exact le_trans (not_lt.mp ha) ((List.sorted_cons.mp hs).1 x hxt)

/-- C5: `record_behavior` appends the timestamp to the key's window and then
evicts by a prefix trim exactly the entries older than `now` minus one hour;
on a time-ordered window every retained entry is at or after the cutoff; and
the hour-window count query only ever counts timestamps strictly newer than
`now - 3600`, so no timestamp older than that cutoff is ever counted. -/
theorem window_trim_retention (w : Windows) (agent etype : String) (ts now : ℚ) :
    record_behavior w agent etype ts now (behaviorKey agent etype)
      = ((w (behaviorKey agent etype)) ++ [ts]).dropWhile
          (fun t => decide (t < now - oneHour))
    ∧ (List.Sorted (· ≤ ·) (w (behaviorKey agent etype) ++ [ts]) →
        ∀ x ∈ record_behavior w agent etype ts now (behaviorKey agent etype),
          now - oneHour ≤ x)
    ∧ get_failures_last_hour w agent now
        = ((w (behaviorKey agent "request_failed")).filter
            (fun t => decide (now - oneHour < t))).length
    ∧ ∀ x ∈ (w (behaviorKey agent "request_failed")).filter
          (fun t => decide (now - oneHour < t)), ¬ x < now - oneHour := by
  refine ⟨by simp only [record_behavior, Function.update_same], fun hs x hx => ?_, rfl,
    fun x hx => ?_⟩
  · simp only [record_behavior, Function.update_same] at hx
    exact dropWhile_sorted_lower_bound (now - oneHour) _ hs x hx
  · have hmem := List.of_mem_filter hx
    simp only [decide_eq_true_eq] at hmem
    exact not_lt.mpr (le_of_lt hmem)

/-- Witness for C5 at the empty window, timestamp 5 and current time 10. -/
theorem window_trim_retention_checked :
    List.Sorted (· ≤ ·) (((fun _ => ([] : List ℚ)) : Windows) (behaviorKey "a" "e") ++ [(5 : ℚ)])
    ∧ ∀ x ∈ record_behavior (fun _ => []) "a" "e" 5 10 (behaviorKey "a" "e"),
        (10 : ℚ) - oneHour ≤ x :=
  ⟨by simp, (window_trim_retention (fun _ => []) "a" "e" 5 10).2.1 (by simp)⟩

/-- C8: one monitor call appends to the alert log exactly one alert (in state
"new") for each finding whose severity is critical or high — findings of
medium or low severity produce no alert — while the score update folds over
ALL findings of the call, so medium/low findings still contribute their
increment; no existing alert is removed or overwritten. -/
theorem alerts_iff_high_or_critical (rules : Rules) (m : Monitor)
    (agent etype : String) (payload : List (String × Val)) (now : ℚ) :
    (monitor_agent_behavior rules m agent etype payload now).1.alerts
      = m.alerts
        ++ ((detect_anomalies rules (record_behavior m.behaviors agent etype now now)
              agent etype payload now).filter alertWorthy).map (fun f => mkAlert agent f now)
    ∧ (∀ f : Finding,
        alertWorthy f = (f.severity == Severity.critical || f.severity == Severity.high))
    ∧ (∀ f : Finding, (mkAlert agent f now).status = "new")
    ∧ (monitor_agent_behavior rules m agent etype payload now).1.scores agent
      = (if detect_anomalies rules (record_behavior m.behaviors agent etype now now)
            agent etype payload now = []
         then m.scores agent
         else update_anomaly_score (m.scores agent)
            (detect_anomalies rules (record_behavior m.behaviors agent etype now now)
              agent etype payload now)) := by
  refine ⟨(monitor_state_char rules m agent etype payload now).2.1, fun f => rfl,
    fun f => rfl, ?_⟩
  rw [(monitor_state_char rules m agent etype payload now).2.2]
  by_cases hc : detect_anomalies rules (record_behavior m.behaviors agent etype now now)
      agent etype payload now = []
  · simp [hc]
  · simp [hc, Function.update_same]

/-- C9: a `data_access` event whose payload lacks the `sensitive` field makes
the sensitive-data rule silently produce no finding, the other rules are
still evaluated (only the unusual-hour rule can fire for this event type),
and the event is still recorded in the behavior window. -/
theorem missing_field_rules_total (rules : Rules) (m : Monitor) (agent : String)
    (payload : List (String × Val)) (w : Windows) (now : ℚ)
    (h : List.lookup "sensitive" payload = none) :
    detect_anomalies rules w agent "data_access" payload now
      = (if hourOf now < 6 ∨ 22 < hourOf now
         then [⟨"UNUSUAL_TIME_ACCESS", Severity.low, some (hourOf now), none⟩]
         else [])
    ∧ (monitor_agent_behavior rules m agent "data_access" payload now).1.behaviors
      = record_behavior m.behaviors agent "data_access" now now := by
  refine ⟨?_, (monitor_state_char rules m agent "data_access" payload now).1⟩
  simp +decide [detect_anomalies, h, truthy]

/-- Witness for C9: a `data_access` event with an empty payload at time 0. -/
theorem missing_field_rules_total_checked :
    List.lookup "sensitive" ([] : List (String × Val)) = none
    ∧ detect_anomalies defaultRules (fun _ => []) "a" "data_access" [] 0
        = (if hourOf 0 < 6 ∨ 22 < hourOf 0
           then [⟨"UNUSUAL_TIME_ACCESS", Severity.low, some (hourOf 0), none⟩]
           else [])
    ∧ (monitor_agent_behavior defaultRules initMonitor "a" "data_access" [] 0).1.behaviors
        = record_behavior initMonitor.behaviors "a" "data_access" 0 0 :=
  ⟨rfl,
   (missing_field_rules_total defaultRules initMonitor "a" [] (fun _ => []) 0 rfl).1,
   (missing_field_rules_total defaultRules initMonitor "a" [] (fun _ => []) 0 rfl).2⟩

/-- The rule-engine trace produces one findings list per event. -/
theorem evalTrace_length (rules : Rules) (w : Windows) (agent etype : String)
    (payload : List (String × Val)) (times : List ℚ) :
    (evalTrace rules w agent etype payload times).length = times.length := by
  induction times generalizing w with
  | nil => rfl
  | cons t rest ih => simp [evalTrace, ih]

/-- Key lemma for C3: if every event of an `api_call` trace lies within one
60-second span `(T - 60, T]`, and the starting window for the key already
holds `n` timestamps from that span, then the rule evaluation of the
`(j+1)`-st event sees a count of `n + j + 1` and emits the API-frequency
finding exactly when that count exceeds the default threshold 100. -/
theorem evalTrace_api_filter (agent : String) (payload : List (String × Val)) (T : ℚ) :
    ∀ (times : List ℚ) (w : Windows) (n : Nat),
      (w (behaviorKey agent "api_call")).length = n →
      (∀ x ∈ w (behaviorKey agent "api_call"), T - 60 < x ∧ x ≤ T) →
      (∀ x ∈ times, T - 60 < x ∧ x ≤ T) →
      ∀ j, j < times.length →
        ((evalTrace defaultRules w agent "api_call" payload times).getD j []).filter isApi
          = (if 100 < n + j + 1
             then [⟨"API_CALL_FREQUENCY", Severity.high, some ((n + j + 1 : Nat) : Int),
                 some (100 : Int)⟩]
             else []) := by
  intro times
  induction times with
  | nil =>
    intro w n _ _ _ j hj
    simp at hj
  | cons t rest ih =>
    intro w n hlen hwin htimes j hj
    have ht : T - 60 < t ∧ t ≤ T := htimes t (List.mem_cons_self t rest)
    have hkey : record_behavior w agent "api_call" t t (behaviorKey agent "api_call")
        = w (behaviorKey agent "api_call") ++ [t] := by
      simp only [record_behavior, Function.update_same]
      apply dropWhile_eq_self_of_all
      intro x hx
      have hx2 : T - 60 < x := by
        rcases List.mem_append.mp hx with hx1 | hx1
        · exact (hwin x hx1).1
        · simp only [List.mem_singleton] at hx1
          rw [hx1]
          exact ht.1
      simp only [oneHour, decide_eq_false_iff_not, not_lt]
      linarith [ht.2]
    have hlen1 : (record_behavior w agent "api_call" t t (behaviorKey agent "api_call")).length
        = n + 1 := by
      rw [hkey]
      simp [hlen]
    have hwin1 : ∀ x ∈ record_behavior w agent "api_call" t t (behaviorKey agent "api_call"),
        T - 60 < x ∧ x ≤ T := by
      rw [hkey]
      intro x hx
      rcases List.mem_append.mp hx with hx1 | hx1
      · exact hwin x hx1
      · simp only [List.mem_singleton] at hx1
        rw [hx1]
        exact ht
    cases j with
    | zero =>
      simp only [evalTrace, List.getD_cons_zero]
      have hcount : get_calls_in_last_minute
          (record_behavior w agent "api_call" t t) agent "api_call" t = n + 1 := by
        unfold get_calls_in_last_minute
        rw [List.filter_eq_self.mpr, hlen1]
        intro x hx
        have := hwin1 x hx
        simp only [decide_eq_true_eq]
        linarith [this.1, ht.2]
      by_cases hthr : 100 < n + 1
      · simp +decide [detect_anomalies, defaultRules, hcount, isApi, List.filter_append,
          apply_ite (List.filter isApi), hthr, Int.lt_iff_add_one_le]
        omega
      · simp +decide [detect_anomalies, defaultRules, hcount, isApi, List.filter_append,
          apply_ite (List.filter isApi), hthr]
        omega
    | succ j2 =>
      simp only [evalTrace, List.getD_cons_succ]
      have harith : n + 1 + j2 + 1 = n + (j2 + 1) + 1 := by omega
      have hrest := ih (record_behavior w agent "api_call" t t) (n + 1) hlen1 hwin1
        (fun x hx => htimes x (List.mem_cons_of_mem t hx)) j2 (by simpa using Nat.lt_of_succ_lt_succ hj)
      rw [harith] at hrest
      exact hrest

/-- C3: for an agent generating 101 `api_call` events within one 60-second
span under the default policy, the first 100 evaluations emit no
API-frequency finding and the evaluation of the 101st event emits exactly
one: severity high, observed value 101, threshold 100. -/
theorem api_frequency_101st_event (agent : String) (payload : List (String × Val))
    (times : List ℚ) (T : ℚ)
    (hlen : times.length = 101)
    (hspan : ∀ x ∈ times, T - 60 < x ∧ x ≤ T) :
    (evalTrace defaultRules (fun _ => []) agent "api_call" payload times).length = 101
    ∧ (∀ j, j < 100 →
        ((evalTrace defaultRules (fun _ => []) agent "api_call" payload times).getD j
          []).filter isApi = [])
    ∧ ((evalTrace defaultRules (fun _ => []) agent "api_call" payload times).getD 100
        []).filter isApi
      = [⟨"API_CALL_FREQUENCY", Severity.high, some 101, some 100⟩] := by
  refine ⟨by rw [evalTrace_length, hlen], fun j hj => ?_, ?_⟩
  · have hstep := evalTrace_api_filter agent payload T times (fun _ => []) 0 rfl
      (by simp) hspan j (by omega)
    rw [hstep, if_neg (by omega)]
  · have hstep := evalTrace_api_filter agent payload T times (fun _ => []) 0 rfl
      (by simp) hspan 100 (by omega)
    rw [hstep, if_pos (by omega)]
    norm_num

/-- Witness for C3: 101 `api_call` events all at time 0 (span hypotheses hold
with `T = 0`); the 101st evaluation emits the single high finding 101/100. -/
theorem api_frequency_101st_event_checked :
    (List.replicate 101 (0 : ℚ)).length = 101
    ∧ (∀ x ∈ List.replicate 101 (0 : ℚ), (0 : ℚ) - 60 < x ∧ x ≤ 0)
    ∧ ((evalTrace defaultRules (fun _ => []) "a" "api_call" []
        (List.replicate 101 (0 : ℚ))).getD 100 []).filter isApi
      = [⟨"API_CALL_FREQUENCY", Severity.high, some 101, some 100⟩] :=
  ⟨by simp,
   fun x hx => by rw [List.eq_of_mem_replicate hx]; norm_num,
   (api_frequency_101st_event "a" [] (List.replicate 101 (0 : ℚ)) 0 (by simp)
      (fun x hx => by rw [List.eq_of_mem_replicate hx]; norm_num)).2.2⟩

end UEBA
